import Mathlib

/-!
Verification of `pymonzo/api_objects.py`.

The module maps JSON objects returned by the Monzo banking API into typed
in-memory records.  We embed the Python code shallowly:

* `Json` models the JSON values a response mapping can hold.
* A Python object's `__dict__` is modelled as an association list
  `Dict = List (String × Attr)`, where `Attr` distinguishes raw JSON
  values, parsed timestamps, nested merchant records, the `_raw_data`
  copy and the `_context` reference.
* `MonzoObject.init` is the transcription of `MonzoObject.__init__`:
  required-key validation, `_raw_data` copy, `_parse_special_fields`
  on a copy of the data, `__dict__.update(**data_copy)`, and finally
  `self._context = context`.  Each record variant specialises it with
  its `_required_keys` list and its `_parse_special_fields` method.
* Python mutation of dictionary objects is modelled in two ways: the
  main model threads the mutated copy as an explicit value, and a
  second, store-based model (`MonzoObject.initSt`) makes dictionary
  identity explicit so that non-mutation of the caller's mapping is a
  provable statement.
-/

/-- JSON values as delivered by the Monzo API (and Python scalars built
from them).  `num` covers Python numbers, `null` is Python `None`. -/
inductive Json : Type where
  | str : String → Json
  | num : Int → Json
  | bool : Bool → Json
  | null : Json
  | obj : List (String × Json) → Json
  | arr : List Json → Json

/-- Python truthiness of a `Json` value, as used by `data.get('settled')`
and `data.get('merchant')` tests: empty strings, zero, `False`, `None`,
empty objects and empty arrays are falsy. -/
def Json.truthy : Json → Bool
  | .str s => !(s == "")
  | .num n => !(n == 0)
  | .bool b => b
  | .null => false
  | .obj l => !l.isEmpty
  | .arr l => !l.isEmpty

/-- The `isinstance(x, six.text_type)` check: only string values are text. -/
def Json.isTextType : Json → Bool
  | .str _ => true
  | _ => false

/-- Abstract timestamp.  `dateutil.parser.parse` is an external library;
we model its result as an opaque-looking wrapper around the source value,
which is enough to distinguish a parsed timestamp from the raw string. -/
structure Timestamp : Type where
  src : Json

/-- Model of `dateutil.parser.parse` (imported as `parse_date`). -/
def parse_date (j : Json) : Timestamp := ⟨j⟩

/-- Values stored in a record's `__dict__`: raw JSON values mapped over
by `__dict__.update`, parsed timestamps, a nested `MonzoMerchant`
record (its own `__dict__`), the `_raw_data` copy, and the `_context`
reference (`none` models Python `None`, `some i` an API-context handle). -/
inductive Attr : Type where
  | raw : Json → Attr
  | date : Timestamp → Attr
  | merchantRec : List (String × Attr) → Attr
  | rawData : List (String × Json) → Attr
  | context : Option Nat → Attr

/-- Whether an attribute value is a nested merchant record. -/
def Attr.isMerchantRecB : Attr → Bool
  | .merchantRec _ => true
  | _ => false

/-- Python exceptions that `MonzoObject.__init__` and the parsing helpers
can raise: `ValueError` (with the missing-keys list), `TypeError` (from
treating a non-mapping as a mapping), `KeyError` (from `dict.pop`). -/
inductive PyError : Type where
  | valueError : List String → PyError
  | typeError : PyError
  | keyError : PyError

/-- An input mapping: a Python dict of string keys to JSON values. -/
abbrev JMap := List (String × Json)

/-- A Python object's `__dict__`. -/
abbrev Dict := List (String × Attr)

/-- Dictionary lookup (`data[k]` / `data.get(k)`): first binding wins;
a Python dict has at most one binding per key. -/
def alookup {α : Type} (k : String) : List (String × α) → Option α
  | [] => none
  | p :: rest => if p.1 = k then some p.2 else alookup k rest

/-- Keys of a mapping, used to state that a mapping is a genuine dict
(no duplicate keys). -/
def keysOf {α : Type} (l : List (String × α)) : List String :=
  l.map Prod.fst

/-- The `missing_keys` list computed by `MonzoObject.__init__`:
`[k for k in self._required_keys if k not in data]`. -/
def missingOf (required : List String) (data : JMap) : List String :=
  required.filter (fun k => (alookup k data).isNone)

/-- Python's `k in data` when `data` is a list: the string key is
compared against each element, and `k == e` holds only for an equal
string element. -/
def jmemStr (k : String) : List Json → Bool
  | [] => false
  | Json.str s :: rest => if s = k then true else jmemStr k rest
  | _ :: rest => jmemStr k rest

/-- The `missing_keys` list computed by `MonzoObject.__init__` when the
passed data is a Python list rather than a dict: the membership test
`k not in data` still works, checking the key against the list's
elements. -/
def missingOfList (required : List String) (elems : List Json) : List String :=
  required.filter (fun k => !jmemStr k elems)

/-- Setting a key in a dict (`self.attr = v` / one step of
`__dict__.update`): overwrites an existing binding in place, otherwise
appends a new one. -/
def dictSet : Dict → String → Attr → Dict
  | [], k, v => [(k, v)]
  | p :: rest, k, v => if p.1 = k then (k, v) :: rest else p :: dictSet rest k v

/-- `self.__dict__.update(**data_copy)`: every remaining field of the
data copy is stored as a raw attribute, overwriting existing ones. -/
def dictUpdateRaw (d : Dict) (up : JMap) : Dict :=
  up.foldl (fun acc p => dictSet acc p.1 (Attr.raw p.2)) d

/-- Removal of a key, the effect of `data.pop(k)` on the dict. -/
def eraseKey (k : String) : JMap → JMap
  | [] => []
  | p :: rest => if p.1 = k then eraseKey k rest else p :: eraseKey k rest

/-- The type of a `_parse_special_fields` method: takes the object's
`__dict__` and the data copy, returns the updated `__dict__`, the
mutated data copy, and an exception if one was raised. -/
abbrev ParseFun := Dict → JMap → Dict × JMap × Option PyError

/-- `MonzoObject._parse_special_fields`: the base class parses nothing. -/
def MonzoObject.parse_special_fields : ParseFun :=
  fun self dc => (self, dc, none)

/-- The body `self.created = parse_date(data.pop('created'))` shared by
the `_parse_special_fields` methods of `MonzoAccount`, `MonzoPot` and
`MonzoMerchant` (their three method bodies are identical). -/
def parse_created : ParseFun := fun self dc =>
  match alookup "created" dc with
  | some j => (dictSet self "created" (Attr.date (parse_date j)), eraseKey "created" dc, none)
  | none => (self, dc, some PyError.keyError)

/-- `MonzoObject.__init__` transcribed.  `self0` is the object's
`__dict__` before the call (empty for a fresh object; the existing dict
when `deposit`/`withdraw` re-invoke `__init__`).  Steps, in source
order: compute `missing_keys` and raise `ValueError` if non-empty; set
`self._raw_data = data.copy()`; run `self._parse_special_fields` on
`data_copy = data.copy()` (an exception there propagates, leaving the
attributes set so far); `self.__dict__.update(**data_copy)`; finally
`self._context = context`. -/
def MonzoObject.init (required : List String) (pf : ParseFun)
    (self0 : Dict) (ctx : Option Nat) (data : JMap) : Dict × Option PyError :=
  let missing := missingOf required data
  if missing.isEmpty then
    let self1 := dictSet self0 "_raw_data" (Attr.rawData data)
    match pf self1 data with
    | (self2, _, some e) => (self2, some e)
    | (self2, dc, none) =>
      (dictSet (dictUpdateRaw self2 dc) "_context" (Attr.context ctx), none)
  else (self0, some (PyError.valueError missing))

/-- `MonzoAccount._required_keys`. -/
def MonzoAccount.required_keys : List String := ["id", "description", "created"]

/-- `MonzoPot._required_keys`. -/
def MonzoPot.required_keys : List String :=
  ["id", "name", "created", "style", "balance", "currency", "updated", "deleted"]

/-- `MonzoBalance._required_keys`. -/
def MonzoBalance.required_keys : List String := ["balance", "currency", "spend_today"]

/-- `MonzoTransaction._required_keys`. -/
def MonzoTransaction.required_keys : List String :=
  ["amount", "created", "currency", "description", "id", "merchant", "metadata", "notes", "is_load"]

/-- `MonzoMerchant._required_keys`. -/
def MonzoMerchant.required_keys : List String :=
  ["address", "created", "group_id", "id", "logo", "emoji", "name", "category"]

/-- Constructing a fresh `MonzoMerchant(data=..., context=...)`. -/
def MonzoMerchant.new (data : JMap) (ctx : Option Nat) : Dict × Option PyError :=
  MonzoObject.init MonzoMerchant.required_keys parse_created [] ctx data

/-- `MonzoTransaction._parse_special_fields`: parses `created`, parses
`settled` when present and truthy, and replaces a truthy non-string
`merchant` value with a nested `MonzoMerchant` record (built with
context `None`).  A truthy non-string merchant that is not a valid
mapping makes the nested constructor raise: a mapping missing required
merchant keys raises `ValueError`; a list raises `ValueError` listing
the keys not among its elements (the membership test works on lists),
or, when all key strings appear as elements, `TypeError` from
`data.pop('created')` on the list; any other value raises `TypeError`
from the membership test on a non-container. -/
def MonzoTransaction.parse_special_fields : ParseFun := fun self dc =>
  match alookup "created" dc with
  | none => (self, dc, some PyError.keyError)
  | some cj =>
    let self1 := dictSet self "created" (Attr.date (parse_date cj))
    let dc1 := eraseKey "created" dc
    let step2 : Dict × JMap :=
      match alookup "settled" dc1 with
      | some sj =>
        if sj.truthy then
          (dictSet self1 "settled" (Attr.date (parse_date sj)), eraseKey "settled" dc1)
        else (self1, dc1)
      | none => (self1, dc1)
    match alookup "merchant" step2.2 with
    | some mj =>
      if mj.truthy && !mj.isTextType then
        match mj with
        | Json.obj fields =>
          match MonzoMerchant.new fields none with
          | (_, some e) => (step2.1, eraseKey "merchant" step2.2, some e)
          | (mdict, none) =>
            (dictSet step2.1 "merchant" (Attr.merchantRec mdict), eraseKey "merchant" step2.2, none)
        | Json.arr elems =>
          (step2.1, eraseKey "merchant" step2.2,
            if (missingOfList MonzoMerchant.required_keys elems).isEmpty then some PyError.typeError
            else some (PyError.valueError (missingOfList MonzoMerchant.required_keys elems)))
        | _ => (step2.1, eraseKey "merchant" step2.2, some PyError.typeError)
      else (step2.1, step2.2, none)
    | none => (step2.1, step2.2, none)

/-- Constructing a fresh `MonzoAccount(data=..., context=...)`. -/
def MonzoAccount.new (data : JMap) (ctx : Option Nat) : Dict × Option PyError :=
  MonzoObject.init MonzoAccount.required_keys parse_created [] ctx data

/-- Constructing a fresh `MonzoPot(data=..., context=...)`. -/
def MonzoPot.new (data : JMap) (ctx : Option Nat) : Dict × Option PyError :=
  MonzoObject.init MonzoPot.required_keys parse_created [] ctx data

/-- Constructing a fresh `MonzoBalance(data=..., context=...)`. -/
def MonzoBalance.new (data : JMap) (ctx : Option Nat) : Dict × Option PyError :=
  MonzoObject.init MonzoBalance.required_keys MonzoObject.parse_special_fields [] ctx data

/-- Constructing a fresh `MonzoTransaction(data=..., context=...)`. -/
def MonzoTransaction.new (data : JMap) (ctx : Option Nat) : Dict × Option PyError :=
  MonzoObject.init MonzoTransaction.required_keys MonzoTransaction.parse_special_fields [] ctx data

/-- An HTTP request issued through the context:
`self._context._get_response(method=..., endpoint=..., body=...)`.
Body values are the Python objects passed, hence `Attr`. -/
structure Request : Type where
  method : String
  endpoint : String
  body : List (String × Attr)

/-- The delegated context's behaviour: what JSON mapping
`response.json()` yields for a given request. -/
abbrev ContextBehavior := Request → JMap

/-- One `_get_response` call: appends the issued request to the log and
returns the response JSON. -/
def getResponse (beh : ContextBehavior) (log : List Request) (req : Request) :
    List Request × JMap :=
  (log ++ [req], beh req)

/-- `MonzoPot.deposit` transcribed.  Reads `self.id` and `self._context`
from the pot's `__dict__` (`none` if they do not have the shapes the
source relies on: a string id and a live, non-`None` context — with
`_context` equal to `None` the source raises `AttributeError` at
`self._context._get_response` and issues no request), issues one PUT
to `/pots/<id>/deposit` with body keys `source_account_id` (the
account's `id` attribute, `None` if absent as in the class default),
`amount` and `dedupe_id`, then re-invokes `__init__` on the existing
pot `__dict__` with the response JSON and the same context. -/
def MonzoPot.deposit (beh : ContextBehavior) (log : List Request) (pot : Dict)
    (amount : Json) (account : Dict) (dedupe : Json) :
    Option (List Request × (Dict × Option PyError)) :=
  match alookup "id" pot, alookup "_context" pot with
  | some (Attr.raw (Json.str pid)), some (Attr.context (some c)) =>
    let accId : Attr := (alookup "id" account).getD (Attr.raw Json.null)
    let req : Request :=
      ⟨"put", "/pots/" ++ pid ++ "/deposit",
        [("source_account_id", accId), ("amount", Attr.raw amount), ("dedupe_id", Attr.raw dedupe)]⟩
    let step := getResponse beh log req
    some (step.1, MonzoObject.init MonzoPot.required_keys parse_created pot (some c) step.2)
  | _, _ => none

/-- `MonzoPot.withdraw` transcribed, in the same way as `deposit`
(including the requirement of a live, non-`None` context): one PUT to
`/pots/<id>/withdraw` with body keys `destination_account_id`,
`amount` and `dedupe_id`, then `__init__` on the existing dict. -/
def MonzoPot.withdraw (beh : ContextBehavior) (log : List Request) (pot : Dict)
    (amount : Json) (account : Dict) (dedupe : Json) :
    Option (List Request × (Dict × Option PyError)) :=
  match alookup "id" pot, alookup "_context" pot with
  | some (Attr.raw (Json.str pid)), some (Attr.context (some c)) =>
    let accId : Attr := (alookup "id" account).getD (Attr.raw Json.null)
    let req : Request :=
      ⟨"put", "/pots/" ++ pid ++ "/withdraw",
        [("destination_account_id", accId), ("amount", Attr.raw amount), ("dedupe_id", Attr.raw dedupe)]⟩
    let step := getResponse beh log req
    some (step.1, MonzoObject.init MonzoPot.required_keys parse_created pot (some c) step.2)
  | _, _ => none

/-!
Store-based model.  To state that construction does not mutate the
caller's mapping, dictionary identity must be explicit: a `Store` is the
heap of live dict objects, and every dict operation of the source acts
on a cell.  `data.copy()` allocates a fresh cell, `dict.pop` mutates the
cell it is called on.
-/

/-- The heap of dict objects; a reference is an index. -/
abbrev Store := List JMap

/-- Dereference a dict object. -/
def Store.getRef (st : Store) (r : Nat) : JMap := st.getD r []

/-- `d.copy()` / allocation of a fresh dict object with the given value. -/
def Store.alloc (st : Store) (v : JMap) : Store × Nat := (st ++ [v], st.length)

/-- `d.pop(k)`: removes the binding from the cell, returns its value. -/
def Store.popKey (st : Store) (r : Nat) (k : String) : Store × Option Json :=
  (st.set r (eraseKey k (st.getRef r)), alookup k (st.getRef r))

/-- A `_parse_special_fields` method in the store model: the data copy
is passed as a reference to a mutable dict cell. -/
abbrev ParseFunSt := Dict → Store → Nat → Store × Dict × Option PyError

/-- Store model of `MonzoObject._parse_special_fields` (parses nothing). -/
def MonzoObject.parse_special_fields_st : ParseFunSt :=
  fun self st _ => (st, self, none)

/-- Store model of the shared `self.created = parse_date(data.pop('created'))`
body of `MonzoAccount`, `MonzoPot` and `MonzoMerchant`. -/
def parse_created_st : ParseFunSt := fun self st dc =>
  let popc := Store.popKey st dc "created"
  match popc.2 with
  | some j => (popc.1, dictSet self "created" (Attr.date (parse_date j)), none)
  | none => (st, self, some PyError.keyError)

/-- Store model of `MonzoObject.__init__`.  The caller's mapping is the
cell `dataRef`; `self._raw_data = data.copy()` snapshots its value, and
`data_copy = data.copy()` allocates a fresh cell on which the parse
method's pops act. -/
def MonzoObject.initSt (required : List String) (pf : ParseFunSt)
    (self0 : Dict) (ctx : Option Nat) (st : Store) (dataRef : Nat) :
    Store × Dict × Option PyError :=
  let data := st.getRef dataRef
  let missing := missingOf required data
  if missing.isEmpty then
    let self1 := dictSet self0 "_raw_data" (Attr.rawData data)
    let step := st.alloc data
    match pf self1 step.1 step.2 with
    | (st2, self2, some e) => (st2, self2, some e)
    | (st2, self2, none) =>
      (st2, dictSet (dictUpdateRaw self2 (st2.getRef step.2)) "_context" (Attr.context ctx), none)
  else (st, self0, some (PyError.valueError missing))

/-- Store model of `MonzoTransaction._parse_special_fields`.  The popped
truthy non-string `merchant` mapping is itself a dict object: it is
placed in a cell and `MonzoMerchant.__init__` runs on that cell. -/
def MonzoTransaction.parse_special_fields_st : ParseFunSt := fun self st dc =>
  let popc := Store.popKey st dc "created"
  match popc.2 with
  | none => (st, self, some PyError.keyError)
  | some cj =>
    let st1 := popc.1
    let self1 := dictSet self "created" (Attr.date (parse_date cj))
    let step2 : Store × Dict :=
      match alookup "settled" (Store.getRef st1 dc) with
      | some sj =>
        if sj.truthy then
          ((Store.popKey st1 dc "settled").1, dictSet self1 "settled" (Attr.date (parse_date sj)))
        else (st1, self1)
      | none => (st1, self1)
    match alookup "merchant" (step2.1.getRef dc) with
    | some mj =>
      if mj.truthy && !mj.isTextType then
        match mj with
        | Json.obj fields =>
          let st3 := (Store.popKey step2.1 dc "merchant").1
          let mcell := st3.alloc fields
          let minit := MonzoObject.initSt MonzoMerchant.required_keys parse_created_st
            [] none mcell.1 mcell.2
          match minit.2.2 with
          | some e => (minit.1, step2.2, some e)
          | none => (minit.1, dictSet step2.2 "merchant" (Attr.merchantRec minit.2.1), none)
        | Json.arr elems =>
          ((Store.popKey step2.1 dc "merchant").1, step2.2,
            if (missingOfList MonzoMerchant.required_keys elems).isEmpty then some PyError.typeError
            else some (PyError.valueError (missingOfList MonzoMerchant.required_keys elems)))
        | _ => ((Store.popKey step2.1 dc "merchant").1, step2.2, some PyError.typeError)
      else (step2.1, step2.2, none)
    | none => (step2.1, step2.2, none)

/-- Characterisation of the exception produced by the merchant branch of
`MonzoTransaction._parse_special_fields` on a given input mapping: a
truthy non-string merchant that is a mapping missing required merchant
keys gives `ValueError` listing them; a truthy list gives `ValueError`
listing the merchant keys not among its elements (Python's membership
test works on lists), or `TypeError` from the later `created` pop when
every key string appears; any other truthy non-string value gives
`TypeError` from the membership test; anything else no exception. -/
def txMerchantErr (data : JMap) : Option PyError :=
  match alookup "merchant" data with
  | some mj =>
    if mj.truthy && !mj.isTextType then
      match mj with
      | Json.obj fields =>
        if (missingOf MonzoMerchant.required_keys fields).isEmpty then none
        else some (PyError.valueError (missingOf MonzoMerchant.required_keys fields))
      | Json.arr elems =>
        if (missingOfList MonzoMerchant.required_keys elems).isEmpty then some PyError.typeError
        else some (PyError.valueError (missingOfList MonzoMerchant.required_keys elems))
      | _ => some PyError.typeError
    else none
  | none => none

/-- Whether the merchant value of a transaction input lets construction
succeed: either it is absent, falsy or a string, or it is a mapping
holding every required merchant key. -/
def MonzoTransaction.merchant_ok (data : JMap) : Bool :=
  (txMerchantErr data).isNone

/-- A predicate on store-model parse methods: the store never shrinks
and no dict cell other than the data copy `dc` is modified.  Each
`_parse_special_fields` satisfies it; `MonzoObject.initSt` then leaves
every pre-existing cell — in particular the caller's mapping — intact. -/
def PfFrame (pf : ParseFunSt) : Prop :=
  ∀ self st dc, st.length ≤ (pf self st dc).1.length ∧
    ∀ r, r < st.length → r ≠ dc → (pf self st dc).1.getRef r = st.getRef r

/-- An output store extends `st` and agrees with it on every cell below
`st.length` other than `dc`: the invariant threaded through a parse
method's store operations. -/
def FramedFrom (st : Store) (dc : Nat) (out : Store) : Prop :=
  st.length ≤ out.length ∧
    ∀ r, r < st.length → ¬ r = dc → Store.getRef out r = Store.getRef st r

/-- The object dict produced by `MonzoTransaction._parse_special_fields`
on a successful run, expressed through lookups on the original data
copy: `created` parsed, `settled` parsed when present and truthy, a
truthy merchant mapping replaced by a nested merchant record. -/
def txSelfOut (self : Dict) (dc : JMap) (cj : Json) : Dict :=
  let s1 := dictSet self "created" (Attr.date (parse_date cj))
  let s2 := match alookup "settled" dc with
    | some sj => if sj.truthy then dictSet s1 "settled" (Attr.date (parse_date sj)) else s1
    | none => s1
  match alookup "merchant" dc with
  | some (Json.obj fields) =>
    if (Json.obj fields).truthy then
      dictSet s2 "merchant" (Attr.merchantRec (MonzoMerchant.new fields none).1)
    else s2
  | _ => s2

/-- The data copy left by `MonzoTransaction._parse_special_fields` on a
successful run: `created` popped, `settled` popped when present and
truthy, `merchant` popped when truthy and a mapping. -/
def txDcOut (dc : JMap) : JMap :=
  let d1 := eraseKey "created" dc
  let d2 := match alookup "settled" dc with
    | some sj => if sj.truthy then eraseKey "settled" d1 else d1
    | none => d1
  match alookup "merchant" dc with
  | some (Json.obj fields) =>
    if (Json.obj fields).truthy then eraseKey "merchant" d2 else d2
  | _ => d2

/-!  Concrete sample inputs used by witnesses and counterexamples. -/

/-- A valid merchant mapping. -/
def merchantSample : JMap :=
  [("address", Json.obj []), ("created", Json.str "2017-09-04T08:55:00Z"),
   ("group_id", Json.str "grp_1"), ("id", Json.str "merch_1"),
   ("logo", Json.str "https://a/b.png"), ("emoji", Json.str "e"),
   ("name", Json.str "Coffee"), ("category", Json.str "eating_out")]

/-- One mapping carrying every required key of all five record variants,
with a valid nested merchant and a truthy `settled` value. -/
def uniSample : JMap :=
  [("id", Json.str "acc_1"), ("description", Json.str "d"),
   ("created", Json.str "2018-01-01T10:23:45Z"), ("name", Json.str "n"),
   ("style", Json.str "beach_ball"), ("balance", Json.num 5000),
   ("currency", Json.str "GBP"), ("updated", Json.str "2018-01-02T10:23:45Z"),
   ("deleted", Json.bool false), ("amount", Json.num (-250)),
   ("merchant", Json.obj merchantSample), ("metadata", Json.obj []),
   ("notes", Json.str ""), ("is_load", Json.bool false),
   ("spend_today", Json.num 0), ("settled", Json.str "2018-01-03T10:23:45Z"),
   ("address", Json.obj []), ("group_id", Json.str "g"),
   ("logo", Json.str "l"), ("emoji", Json.str "e"), ("category", Json.str "c")]

/-- A transaction input whose nine required keys are all present but
whose merchant value is a truthy non-string mapping missing required
merchant keys. -/
def txBadMerchant : JMap :=
  [("amount", Json.num 1), ("created", Json.str "2018-01-01T00:00:00Z"),
   ("currency", Json.str "GBP"), ("description", Json.str "d"),
   ("id", Json.str "tx_1"), ("merchant", Json.obj [("id", Json.str "m_1")]),
   ("metadata", Json.obj []), ("notes", Json.str ""), ("is_load", Json.bool false)]

/-- A transaction input whose merchant value is an empty (falsy) mapping. -/
def txEmptyMerchant : JMap :=
  [("amount", Json.num 1), ("created", Json.str "2018-01-01T00:00:00Z"),
   ("currency", Json.str "GBP"), ("description", Json.str "d"),
   ("id", Json.str "tx_2"), ("merchant", Json.obj []),
   ("metadata", Json.obj []), ("notes", Json.str ""), ("is_load", Json.bool false)]

/-- A transaction input whose `settled` key is present but falsy (the
empty string), with a falsy (empty-mapping) merchant. -/
def txSettledFalsy : JMap :=
  [("amount", Json.num 1), ("created", Json.str "2018-01-01T00:00:00Z"),
   ("currency", Json.str "GBP"), ("description", Json.str "d"),
   ("id", Json.str "tx_3"), ("merchant", Json.obj []),
   ("metadata", Json.obj []), ("notes", Json.str ""), ("is_load", Json.bool false),
   ("settled", Json.str "")]

/-- An account input that also carries a `_context` key. -/
def accCtxKeySample : JMap :=
  [("id", Json.str "acc_9"), ("description", Json.str "d"),
   ("created", Json.str "2018-01-01T00:00:00Z"), ("_context", Json.str "boo")]

/-- An account input that also carries a `_raw_data` key. -/
def accRawDataKeySample : JMap :=
  [("id", Json.str "acc_8"), ("description", Json.str "d"),
   ("created", Json.str "2018-01-01T00:00:00Z"), ("_raw_data", Json.str "x")]

/-- A minimal pot response mapping (exactly the required pot keys). -/
def potRespSample : JMap :=
  [("id", Json.str "pot_1"), ("name", Json.str "Savings"),
   ("created", Json.str "2017-11-28T09:00:00Z"), ("style", Json.str "blue"),
   ("balance", Json.num 100), ("currency", Json.str "GBP"),
   ("updated", Json.str "2017-11-28T10:00:00Z"), ("deleted", Json.bool false)]

/-- A context behaviour that answers every request with `potRespSample`. -/
def behSample : ContextBehavior := fun _ => potRespSample

/-- A pot whose `__dict__` holds an extra stale attribute (`amount`)
that the pot response lacks: built by constructing a pot from
`uniSample`. -/
def potStale : Dict := (MonzoPot.new uniSample (some 0)).1

/-- An account record used as the deposit/withdraw source or target. -/
def acctSample : Dict := (MonzoAccount.new uniSample (some 0)).1

/-- The deposit of the counterexample: stale pot, minimal pot response. -/
def depositCx : Option (List Request × (Dict × Option PyError)) :=
  MonzoPot.deposit behSample [] potStale (Json.num 10) acctSample (Json.str "dd_1")

/-!  Lookup lemmas for the dictionary operations. -/

theorem alookup_dictSet (d : Dict) (k k' : String) (v : Attr) :
    alookup k (dictSet d k' v) = if k' = k then some v else alookup k d := by
  induction d with
  | nil => simp [dictSet, alookup]
  | cons p rest ih =>
    simp only [dictSet]
    by_cases h : p.1 = k'
    · rw [if_pos h]
      simp only [alookup]
      by_cases h2 : k' = k
      · simp [h2]
      · have h3 : ¬ p.1 = k := fun he => h2 (h.symm.trans he)
        simp [h2, h3]
    · rw [if_neg h]
      simp only [alookup]
      by_cases h2 : p.1 = k
      · have h3 : ¬ k' = k := fun he => h (h2.trans he.symm)
        simp [h2, h3]
      · simp [h2, ih]

theorem alookup_append {α : Type} (k : String) (l1 l2 : List (String × α)) :
    alookup k (l1 ++ l2) = (alookup k l1).orElse (fun _ => alookup k l2) := by
  induction l1 with
  | nil => simp [alookup]
  | cons p rest ih =>
    by_cases h : p.1 = k
    · simp [alookup, h]
    · simp [alookup, h, ih]

theorem alookup_eq_none {α : Type} (k : String) (l : List (String × α)) :
    alookup k l = none ↔ k ∉ keysOf l := by
  induction l with
  | nil => simp [alookup, keysOf]
  | cons p rest ih =>
    simp only [alookup, keysOf, List.map_cons, List.mem_cons]
    by_cases h : p.1 = k
    · rw [if_pos h]
      constructor
      · intro hc; exact Option.noConfusion hc
      · intro hc; exact absurd (Or.inl h.symm) hc
    · have h2 : ¬ k = p.1 := fun he => h he.symm
      simp only [if_neg h]
      rw [ih]
      simp [keysOf, h2]

theorem alookup_reverse {α : Type} (k : String) (l : List (String × α))
    (h : (keysOf l).Nodup) : alookup k l.reverse = alookup k l := by
  induction l with
  | nil => simp
  | cons p rest ih =>
    have hn : (keysOf rest).Nodup := (List.nodup_cons.mp h).2
    have hp : p.1 ∉ keysOf rest := (List.nodup_cons.mp h).1
    rw [List.reverse_cons, alookup_append, ih hn]
    by_cases h2 : p.1 = k
    · have : alookup k rest = none := (alookup_eq_none k rest).mpr (h2 ▸ hp)
      simp [alookup, this, h2, Option.none_orElse']
    · by_cases h3 : (alookup k rest).isSome
      · obtain ⟨v, hv⟩ := Option.isSome_iff_exists.mp h3
        simp [alookup, hv, h2]
      · have : alookup k rest = none := Option.not_isSome_iff_eq_none.mp h3
        simp [alookup, this, h2]

theorem alookup_eraseKey (k k' : String) (l : JMap) :
    alookup k (eraseKey k' l) = if k = k' then none else alookup k l := by
  induction l with
  | nil => simp [eraseKey, alookup]
  | cons p rest ih =>
    simp only [eraseKey]
    by_cases h : p.1 = k'
    · rw [if_pos h, ih]
      by_cases h2 : k = k'
      · simp [h2]
      · have h3 : ¬ p.1 = k := fun he => h2 (he.symm.trans h)
        simp only [alookup]
        simp [h2, h3]
    · rw [if_neg h]
      simp only [alookup]
      by_cases h2 : p.1 = k
      · have h3 : ¬ k = k' := fun he => h (h2.trans he)
        simp [h2, h3]
      · simp [h2, ih]

theorem eraseKey_sublist (k : String) (l : JMap) : List.Sublist (eraseKey k l) l := by
  induction l with
  | nil => simp [eraseKey]
  | cons p rest ih =>
    by_cases h : p.1 = k
    · simpa [eraseKey, h] using ih.trans (List.sublist_cons_self p rest)
    · simpa [eraseKey, h] using ih.cons₂ p

theorem nodup_eraseKey (k : String) (l : JMap) (h : (keysOf l).Nodup) :
    (keysOf (eraseKey k l)).Nodup :=
  h.sublist ((eraseKey_sublist k l).map Prod.fst)

theorem alookup_dictUpdateRaw (d : Dict) (up : JMap) (k : String) :
    alookup k (dictUpdateRaw d up)
      = match alookup k up.reverse with
        | some v => some (Attr.raw v)
        | none => alookup k d := by
  induction up generalizing d with
  | nil => simp [dictUpdateRaw, alookup]
  | cons p rest ih =>
    have step : dictUpdateRaw d (p :: rest) = dictUpdateRaw (dictSet d p.1 (Attr.raw p.2)) rest := by
      simp [dictUpdateRaw]
    rw [step, ih, List.reverse_cons, alookup_append]
    cases hr : alookup k rest.reverse with
    | some v => simp
    | none =>
      by_cases h2 : p.1 = k
      · simp [alookup, h2, alookup_dictSet, Option.none_orElse']
      · simp [alookup, h2, alookup_dictSet, Option.none_orElse']

theorem missingOf_eq_nil (K : List String) (data : JMap) :
    missingOf K data = [] ↔ ∀ k ∈ K, (alookup k data).isSome := by
  unfold missingOf
  rw [List.filter_eq_nil_iff]
  constructor
  · intro h k hk
    have := h k hk
    cases ho : alookup k data with
    | some v => simp
    | none => simp [ho] at this
  · intro h k hk
    have := h k hk
    cases ho : alookup k data with
    | some v => simp [ho]
    | none => simp [ho] at this

/-!  The shape of `MonzoObject.init` in each outcome. -/

theorem init_of_missing (K : List String) (pf : ParseFun) (self0 : Dict)
    (ctx : Option Nat) (data : JMap) (h : missingOf K data ≠ []) :
    MonzoObject.init K pf self0 ctx data
      = (self0, some (PyError.valueError (missingOf K data))) := by
  have hf : (missingOf K data).isEmpty = false := by
    cases hm : missingOf K data with
    | nil => exact absurd hm h
    | cons a t => rfl
  simp [MonzoObject.init, hf]

theorem init_of_parse (K : List String) (pf : ParseFun) (self0 : Dict)
    (ctx : Option Nat) (data : JMap) (s2 : Dict) (dc : JMap)
    (hmiss : missingOf K data = [])
    (hpf : pf (dictSet self0 "_raw_data" (Attr.rawData data)) data = (s2, dc, none)) :
    MonzoObject.init K pf self0 ctx data
      = (dictSet (dictUpdateRaw s2 dc) "_context" (Attr.context ctx), none) := by
  simp [MonzoObject.init, hmiss, hpf]

theorem init_of_parse_err (K : List String) (pf : ParseFun) (self0 : Dict)
    (ctx : Option Nat) (data : JMap) (s2 : Dict) (dc : JMap) (e : PyError)
    (hmiss : missingOf K data = [])
    (hpf : pf (dictSet self0 "_raw_data" (Attr.rawData data)) data = (s2, dc, some e)) :
    MonzoObject.init K pf self0 ctx data = (s2, some e) := by
  simp [MonzoObject.init, hmiss, hpf]

theorem alookup_final (s2 : Dict) (dc : JMap) (v : Attr) (k : String)
    (hnd : (keysOf dc).Nodup) :
    alookup k (dictSet (dictUpdateRaw s2 dc) "_context" v)
      = if "_context" = k then some v
        else match alookup k dc with
          | some w => some (Attr.raw w)
          | none => alookup k s2 := by
  rw [alookup_dictSet, alookup_dictUpdateRaw, alookup_reverse _ _ hnd]

/-!  Master lemmas: full characterisation of a successful construction,
one per `_parse_special_fields` behaviour. -/

theorem init_created_spec (K : List String) (self0 : Dict) (ctx : Option Nat)
    (data : JMap) (cj : Json)
    (hnd : (keysOf data).Nodup)
    (hc : alookup "created" data = some cj)
    (hmiss : missingOf K data = []) :
    (MonzoObject.init K parse_created self0 ctx data).2 = none ∧
    ∀ k, alookup k (MonzoObject.init K parse_created self0 ctx data).1
      = if k = "_context" then some (Attr.context ctx)
        else if k = "created" then some (Attr.date (parse_date cj))
        else
          match alookup k data with
          | some v => some (Attr.raw v)
          | none => if k = "_raw_data" then some (Attr.rawData data) else alookup k self0 := by
  have hpf : parse_created (dictSet self0 "_raw_data" (Attr.rawData data)) data
      = (dictSet (dictSet self0 "_raw_data" (Attr.rawData data)) "created"
          (Attr.date (parse_date cj)), eraseKey "created" data, none) := by
    simp [parse_created, hc]
  rw [init_of_parse K parse_created self0 ctx data _ _ hmiss hpf]
  refine ⟨rfl, fun k => ?_⟩
  rw [alookup_final _ _ _ _ (nodup_eraseKey _ _ hnd)]
  by_cases hk1 : k = "_context"
  · subst hk1; simp
  · have hk1' : ¬ "_context" = k := fun he => hk1 he.symm
    rw [if_neg hk1', if_neg hk1, alookup_eraseKey]
    by_cases hk2 : k = "created"
    · subst hk2
      simp [alookup_dictSet]
    · rw [if_neg hk2, if_neg hk2]
      cases hd : alookup k data with
      | some v => rfl
      | none =>
        rw [alookup_dictSet]
        have h2 : ¬ "created" = k := fun he => hk2 he.symm
        rw [if_neg h2, alookup_dictSet]
        by_cases hk3 : k = "_raw_data"
        · subst hk3; simp
        · have h3 : ¬ "_raw_data" = k := fun he => hk3 he.symm
          rw [if_neg h3, if_neg hk3]

theorem init_base_spec (K : List String) (self0 : Dict) (ctx : Option Nat)
    (data : JMap)
    (hnd : (keysOf data).Nodup)
    (hmiss : missingOf K data = []) :
    (MonzoObject.init K MonzoObject.parse_special_fields self0 ctx data).2 = none ∧
    ∀ k, alookup k (MonzoObject.init K MonzoObject.parse_special_fields self0 ctx data).1
      = if k = "_context" then some (Attr.context ctx)
        else
          match alookup k data with
          | some v => some (Attr.raw v)
          | none => if k = "_raw_data" then some (Attr.rawData data) else alookup k self0 := by
  have hpf : MonzoObject.parse_special_fields (dictSet self0 "_raw_data" (Attr.rawData data)) data
      = (dictSet self0 "_raw_data" (Attr.rawData data), data, none) := rfl
  rw [init_of_parse _ _ _ _ _ _ _ hmiss hpf]
  refine ⟨rfl, fun k => ?_⟩
  rw [alookup_final _ _ _ _ hnd]
  by_cases hk1 : k = "_context"
  · subst hk1; simp
  · have hk1' : ¬ "_context" = k := fun he => hk1 he.symm
    rw [if_neg hk1', if_neg hk1]
    cases hd : alookup k data with
    | some v => rfl
    | none =>
      rw [alookup_dictSet]
      by_cases hk3 : k = "_raw_data"
      · subst hk3; simp
      · have h3 : ¬ "_raw_data" = k := fun he => hk3 he.symm
        rw [if_neg h3, if_neg hk3]

/-!  Characterisation of `MonzoTransaction._parse_special_fields`. -/

theorem merchant_new_snd (fields : JMap)
    (hm : missingOf MonzoMerchant.required_keys fields = []) :
    (MonzoMerchant.new fields none).2 = none := by
  have hcr : (alookup "created" fields).isSome :=
    (missingOf_eq_nil _ _).mp hm "created" (by decide)
  obtain ⟨cjf, hcjf⟩ := Option.isSome_iff_exists.mp hcr
  have hpf : parse_created (dictSet [] "_raw_data" (Attr.rawData fields)) fields
      = (dictSet (dictSet [] "_raw_data" (Attr.rawData fields)) "created"
          (Attr.date (parse_date cjf)), eraseKey "created" fields, none) := by
    simp [parse_created, hcjf]
  unfold MonzoMerchant.new
  rw [init_of_parse _ _ _ _ _ _ _ hm hpf]

theorem tx_merchant_core (dc : JMap) (hok : txMerchantErr dc = none)
    (s2 : Dict) (d2 : JMap) (hm2 : alookup "merchant" d2 = alookup "merchant" dc) :
    (match alookup "merchant" d2 with
      | some mj =>
        if mj.truthy && !mj.isTextType then
          match mj with
          | Json.obj fields =>
            match MonzoMerchant.new fields none with
            | (_, some e) => (s2, eraseKey "merchant" d2, some e)
            | (mdict, none) =>
              (dictSet s2 "merchant" (Attr.merchantRec mdict), eraseKey "merchant" d2, none)
          | Json.arr elems =>
            (s2, eraseKey "merchant" d2,
              if (missingOfList MonzoMerchant.required_keys elems).isEmpty then
                some PyError.typeError
              else some (PyError.valueError (missingOfList MonzoMerchant.required_keys elems)))
          | _ => (s2, eraseKey "merchant" d2, some PyError.typeError)
        else (s2, d2, none)
      | none => (s2, d2, none))
    = ((match alookup "merchant" dc with
        | some (Json.obj fields) =>
          if (Json.obj fields).truthy then
            dictSet s2 "merchant" (Attr.merchantRec (MonzoMerchant.new fields none).1)
          else s2
        | _ => s2),
       (match alookup "merchant" dc with
        | some (Json.obj fields) =>
          if (Json.obj fields).truthy then eraseKey "merchant" d2 else d2
        | _ => d2), none) := by
  rw [hm2]
  rcases hmv : alookup "merchant" dc with _ | mj
  · rfl
  · cases mj with
    | obj fields =>
      dsimp only
      have htt : ((Json.obj fields).truthy && !(Json.obj fields).isTextType)
          = (Json.obj fields).truthy := by
        simp [Json.isTextType]
      rw [htt]
      by_cases ht : (Json.obj fields).truthy = true
      · simp only [if_pos ht]
        have hmiss : missingOf MonzoMerchant.required_keys fields = [] := by
          simp only [txMerchantErr, hmv, htt, if_pos ht] at hok
          rcases hie : (missingOf MonzoMerchant.required_keys fields).isEmpty with _ | _
          · rw [hie] at hok; exact Option.noConfusion hok
          · exact List.isEmpty_iff.mp hie
        have hsnd := merchant_new_snd fields hmiss
        rcases hmn : MonzoMerchant.new fields none with ⟨mdict, merr⟩
        rw [hmn] at hsnd
        simp only at hsnd
        subst hsnd
        rfl
      · have ht2 : (Json.obj fields).truthy = false := Bool.eq_false_iff.mpr ht
        simp only [ht2, Bool.false_eq_true, if_false]
    | str s =>
      dsimp only
      have : ((Json.str s).truthy && !(Json.str s).isTextType) = false := by
        simp [Json.isTextType]
      simp only [this, Bool.false_eq_true, if_false]
    | num n =>
      dsimp only
      by_cases hcond : ((Json.num n).truthy && !(Json.num n).isTextType) = true
      · simp only [txMerchantErr, hmv, if_pos hcond] at hok
        exact Option.noConfusion hok
      · have h2 : ((Json.num n).truthy && !(Json.num n).isTextType) = false :=
          Bool.eq_false_iff.mpr hcond
        simp only [h2, Bool.false_eq_true, if_false]
    | bool b =>
      dsimp only
      by_cases hcond : ((Json.bool b).truthy && !(Json.bool b).isTextType) = true
      · simp only [txMerchantErr, hmv, if_pos hcond] at hok
        exact Option.noConfusion hok
      · have h2 : ((Json.bool b).truthy && !(Json.bool b).isTextType) = false :=
          Bool.eq_false_iff.mpr hcond
        simp only [h2, Bool.false_eq_true, if_false]
    | null =>
      dsimp only
      have : (Json.null.truthy && !Json.null.isTextType) = false := by
        simp [Json.truthy]
      simp only [this, Bool.false_eq_true, if_false]
    | arr l =>
      dsimp only
      by_cases hcond : ((Json.arr l).truthy && !(Json.arr l).isTextType) = true
      · simp only [txMerchantErr, hmv, if_pos hcond] at hok
        split at hok <;> exact Option.noConfusion hok
      · have h2 : ((Json.arr l).truthy && !(Json.arr l).isTextType) = false :=
          Bool.eq_false_iff.mpr hcond
        simp only [h2, Bool.false_eq_true, if_false]

theorem tx_parse_eq (self : Dict) (dc : JMap) (cj : Json)
    (hc : alookup "created" dc = some cj)
    (hok : txMerchantErr dc = none) :
    MonzoTransaction.parse_special_fields self dc = (txSelfOut self dc cj, txDcOut dc, none) := by
  have hs : alookup "settled" (eraseKey "created" dc) = alookup "settled" dc := by
    rw [alookup_eraseKey]; simp
  have hm1 : alookup "merchant" (eraseKey "created" dc) = alookup "merchant" dc := by
    rw [alookup_eraseKey]; simp
  have hm2 : alookup "merchant" (eraseKey "settled" (eraseKey "created" dc))
      = alookup "merchant" dc := by
    rw [alookup_eraseKey, hm1]; simp
  unfold MonzoTransaction.parse_special_fields txSelfOut txDcOut
  rw [hc]
  dsimp only
  simp only [hs]
  rcases hsv : alookup "settled" dc with _ | sj
  · exact tx_merchant_core dc hok _ _ hm1
  · by_cases ht : sj.truthy = true
    · simp only [if_pos ht]
      exact tx_merchant_core dc hok _ _ hm2
    · have ht2 : sj.truthy = false := Bool.eq_false_iff.mpr ht
      simp only [ht2, Bool.false_eq_true, if_false]
      exact tx_merchant_core dc hok _ _ hm1

theorem txDcOut_sublist (dc : JMap) : List.Sublist (txDcOut dc) dc := by
  have h1 : List.Sublist (eraseKey "created" dc) dc := eraseKey_sublist _ _
  have h2 : List.Sublist (eraseKey "settled" (eraseKey "created" dc)) dc :=
    (eraseKey_sublist _ _).trans h1
  unfold txDcOut
  dsimp only
  split <;> (try split) <;> (try split) <;> (try split) <;>
    first
      | exact h1
      | exact h2
      | exact (eraseKey_sublist _ _).trans h1
      | exact (eraseKey_sublist _ _).trans h2

theorem nodup_txDcOut (dc : JMap) (hnd : (keysOf dc).Nodup) :
    (keysOf (txDcOut dc)).Nodup :=
  hnd.sublist ((txDcOut_sublist dc).map Prod.fst)

theorem alookup_txDcOut_other (dc : JMap) (k : String)
    (h1 : ¬ k = "created") (h2 : ¬ k = "settled") (h3 : ¬ k = "merchant") :
    alookup k (txDcOut dc) = alookup k dc := by
  unfold txDcOut
  dsimp only
  split <;> (try split) <;> (try split) <;> (try split) <;>
    simp [alookup_eraseKey, h1, h2, h3]

theorem alookup_txDcOut_created (dc : JMap) :
    alookup "created" (txDcOut dc) = none := by
  unfold txDcOut
  dsimp only
  split <;> (try split) <;> (try split) <;> (try split) <;> simp [alookup_eraseKey]

theorem alookup_txDcOut_settled (dc : JMap) :
    alookup "settled" (txDcOut dc)
      = match alookup "settled" dc with
        | some sj => if sj.truthy then none else some sj
        | none => none := by
  unfold txDcOut
  dsimp only
  rcases hsv : alookup "settled" dc with _ | sj
  · split <;> (try split) <;> (try split) <;> simp_all [alookup_eraseKey]
  · by_cases ht : sj.truthy = true
    · simp only [if_pos ht]
      split <;> (try split) <;> (try split) <;> simp_all [alookup_eraseKey]
    · have ht2 : sj.truthy = false := Bool.eq_false_iff.mpr ht
      simp only [ht2, Bool.false_eq_true, if_false]
      split <;> (try split) <;> (try split) <;> simp_all [alookup_eraseKey]

theorem alookup_txDcOut_merchant (dc : JMap) :
    alookup "merchant" (txDcOut dc)
      = match alookup "merchant" dc with
        | some (Json.obj fields) =>
          if (Json.obj fields).truthy then none else some (Json.obj fields)
        | some mj => some mj
        | none => none := by
  unfold txDcOut
  dsimp only
  rcases hmv : alookup "merchant" dc with _ | mj
  · split <;> (try split) <;> (try split) <;> simp_all [alookup_eraseKey]
  · cases mj <;> (try dsimp only) <;>
      (split <;> (try split) <;> (try split) <;> (try split) <;> simp_all [alookup_eraseKey])

theorem alookup_txSelfOut_other (self : Dict) (dc : JMap) (cj : Json) (k : String)
    (h1 : ¬ k = "created") (h2 : ¬ k = "settled") (h3 : ¬ k = "merchant") :
    alookup k (txSelfOut self dc cj) = alookup k self := by
  have h1' : ¬ "created" = k := fun he => h1 he.symm
  have h2' : ¬ "settled" = k := fun he => h2 he.symm
  have h3' : ¬ "merchant" = k := fun he => h3 he.symm
  unfold txSelfOut
  dsimp only
  split <;> (try split) <;> (try split) <;> (try split) <;>
    simp [alookup_dictSet, h1', h2', h3']

theorem alookup_txSelfOut_created (self : Dict) (dc : JMap) (cj : Json) :
    alookup "created" (txSelfOut self dc cj) = some (Attr.date (parse_date cj)) := by
  unfold txSelfOut
  dsimp only
  split <;> (try split) <;> (try split) <;> (try split) <;> simp [alookup_dictSet]

theorem alookup_txSelfOut_settled (self : Dict) (dc : JMap) (cj : Json) :
    alookup "settled" (txSelfOut self dc cj)
      = match alookup "settled" dc with
        | some sj =>
          if sj.truthy then some (Attr.date (parse_date sj)) else alookup "settled" self
        | none => alookup "settled" self := by
  unfold txSelfOut
  dsimp only
  rcases hsv : alookup "settled" dc with _ | sj
  · split <;> (try split) <;> (try split) <;> simp_all [alookup_dictSet]
  · by_cases ht : sj.truthy = true
    · simp only [if_pos ht]
      split <;> (try split) <;> (try split) <;> simp_all [alookup_dictSet]
    · have ht2 : sj.truthy = false := Bool.eq_false_iff.mpr ht
      simp only [ht2, Bool.false_eq_true, if_false]
      split <;> (try split) <;> (try split) <;> simp_all [alookup_dictSet]

theorem alookup_txSelfOut_merchant (self : Dict) (dc : JMap) (cj : Json) :
    alookup "merchant" (txSelfOut self dc cj)
      = match alookup "merchant" dc with
        | some (Json.obj fields) =>
          if (Json.obj fields).truthy then
            some (Attr.merchantRec (MonzoMerchant.new fields none).1)
          else alookup "merchant" self
        | _ => alookup "merchant" self := by
  unfold txSelfOut
  dsimp only
  rcases hmv : alookup "merchant" dc with _ | mj
  · split <;> (try split) <;> (try split) <;> simp_all [alookup_dictSet]
  · cases mj <;> (try dsimp only) <;>
      (split <;> (try split) <;> (try split) <;> (try split) <;> simp_all [alookup_dictSet])

theorem tx_init_spec (self0 : Dict) (ctx : Option Nat) (data : JMap) (cj : Json)
    (hnd : (keysOf data).Nodup)
    (hc : alookup "created" data = some cj)
    (hmiss : missingOf MonzoTransaction.required_keys data = [])
    (hok : txMerchantErr data = none) :
    (MonzoObject.init MonzoTransaction.required_keys
        MonzoTransaction.parse_special_fields self0 ctx data).2 = none ∧
    ∀ k, alookup k (MonzoObject.init MonzoTransaction.required_keys
        MonzoTransaction.parse_special_fields self0 ctx data).1
      = if "_context" = k then some (Attr.context ctx)
        else match alookup k (txDcOut data) with
          | some w => some (Attr.raw w)
          | none =>
            alookup k (txSelfOut (dictSet self0 "_raw_data" (Attr.rawData data)) data cj) := by
  have hpf := tx_parse_eq (dictSet self0 "_raw_data" (Attr.rawData data)) data cj hc hok
  rw [init_of_parse _ _ _ _ _ _ _ hmiss hpf]
  exact ⟨rfl, fun k => alookup_final _ _ _ _ (nodup_txDcOut data hnd)⟩

/-!  Frame lemmas for the store model: construction never touches any
dict cell that existed before the call, apart from the fresh data copy. -/

theorem Store.getRef_append_self (st : Store) (v : JMap) :
    Store.getRef (st ++ [v]) st.length = v := by
  induction st with
  | nil => rfl
  | cons a t ih => simpa [Store.getRef] using ih

theorem Store.getRef_append_lt (st : Store) (v : JMap) (r : Nat) (h : r < st.length) :
    Store.getRef (st ++ [v]) r = st.getRef r := by
  induction st generalizing r with
  | nil => exact absurd h (Nat.not_lt_zero r)
  | cons a t ih =>
    cases r with
    | zero => rfl
    | succ n => exact ih n (Nat.lt_of_succ_lt_succ h)

theorem Store.getRef_set_ne (st : Store) (r r' : Nat) (v : JMap) (h : ¬ r' = r) :
    Store.getRef (st.set r v) r' = st.getRef r' := by
  induction st generalizing r r' with
  | nil => rfl
  | cons a t ih =>
    cases r with
    | zero =>
      cases r' with
      | zero => exact absurd rfl h
      | succ n => rfl
    | succ m =>
      cases r' with
      | zero => rfl
      | succ n => exact ih m n (fun he => h (congrArg Nat.succ he))

theorem pfFrame_base : PfFrame MonzoObject.parse_special_fields_st := by
  intro self st dc
  exact ⟨Nat.le_refl _, fun r hr hne => rfl⟩

theorem pfFrame_created : PfFrame parse_created_st := by
  intro self st dc
  unfold parse_created_st Store.popKey
  dsimp only
  cases h : alookup "created" (Store.getRef st dc) with
  | some j =>
    refine ⟨?_, fun r hr hne => ?_⟩
    · simp
    · exact Store.getRef_set_ne st dc r _ hne
  | none => exact ⟨Nat.le_refl _, fun r hr hne => rfl⟩

theorem initSt_frame (K : List String) (pf : ParseFunSt) (hpf : PfFrame pf)
    (self0 : Dict) (ctx : Option Nat) (st : Store) (dataRef : Nat) :
    st.length ≤ (MonzoObject.initSt K pf self0 ctx st dataRef).1.length ∧
    ∀ r, r < st.length →
      Store.getRef (MonzoObject.initSt K pf self0 ctx st dataRef).1 r = Store.getRef st r := by
  unfold MonzoObject.initSt Store.alloc
  dsimp only
  by_cases hm : (missingOf K (Store.getRef st dataRef)).isEmpty
  · simp only [hm, if_true]
    obtain ⟨hlen, hframe⟩ :=
      hpf (dictSet self0 "_raw_data" (Attr.rawData (Store.getRef st dataRef)))
        (st ++ [Store.getRef st dataRef]) st.length
    rcases hp : pf (dictSet self0 "_raw_data" (Attr.rawData (Store.getRef st dataRef)))
        (st ++ [Store.getRef st dataRef]) st.length with ⟨st2, self2, err⟩
    rw [hp] at hlen hframe
    have hlen2 : st.length ≤ st2.length := by
      have : (st ++ [Store.getRef st dataRef]).length = st.length + 1 := by simp
      rw [this] at hlen
      exact Nat.le_of_succ_le hlen
    have hframe2 : ∀ r, r < st.length → Store.getRef st2 r = Store.getRef st r := by
      intro r hr
      have h1 : r < (st ++ [Store.getRef st dataRef]).length := by
        simp
        exact Nat.lt_succ_of_lt hr
      have h2 : ¬ r = st.length := Nat.ne_of_lt hr
      rw [hframe r h1 h2]
      exact Store.getRef_append_lt st _ r hr
    cases err with
    | some e => exact ⟨hlen2, fun r hr => hframe2 r hr⟩
    | none => exact ⟨hlen2, fun r hr => hframe2 r hr⟩
  · simp only [hm, Bool.false_eq_true, if_false]
    exact ⟨Nat.le_refl _, fun r hr => trivial⟩

theorem framedFrom_refl (st : Store) (dc : Nat) : FramedFrom st dc st :=
  ⟨Nat.le_refl _, fun _ _ _ => rfl⟩

theorem framedFrom_set (st : Store) (dc : Nat) (out : Store) (v : JMap)
    (h : FramedFrom st dc out) : FramedFrom st dc (out.set dc v) := by
  refine ⟨?_, fun r hr hne => ?_⟩
  · simpa using h.1
  · rw [Store.getRef_set_ne out dc r v hne]
    exact h.2 r hr hne

theorem framedFrom_append (st : Store) (dc : Nat) (out : Store) (v : JMap)
    (h : FramedFrom st dc out) : FramedFrom st dc (out ++ [v]) := by
  refine ⟨?_, fun r hr hne => ?_⟩
  · simp only [List.length_append, List.length_cons, List.length_nil]
    exact Nat.le_succ_of_le h.1
  · rw [Store.getRef_append_lt out v r (Nat.lt_of_lt_of_le hr h.1)]
    exact h.2 r hr hne

theorem framedFrom_initSt (st : Store) (dc : Nat) (out : Store) (K : List String)
    (pf : ParseFunSt) (hpf : PfFrame pf) (s0 : Dict) (c : Option Nat) (ref : Nat)
    (h : FramedFrom st dc out) :
    FramedFrom st dc (MonzoObject.initSt K pf s0 c out ref).1 := by
  obtain ⟨hl, hf⟩ := initSt_frame K pf hpf s0 c out ref
  refine ⟨Nat.le_trans h.1 hl, fun r hr hne => ?_⟩
  rw [hf r (Nat.lt_of_lt_of_le hr h.1)]
  exact h.2 r hr hne

theorem pfFrame_tx : PfFrame MonzoTransaction.parse_special_fields_st := by
  intro self st dc
  have base := framedFrom_refl st dc
  show FramedFrom st dc (MonzoTransaction.parse_special_fields_st self st dc).1
  unfold MonzoTransaction.parse_special_fields_st Store.popKey
  dsimp only
  repeat' split
  all_goals
    first
      | exact base
      | exact framedFrom_set _ _ _ _ base
      | exact framedFrom_set _ _ _ _ (framedFrom_set _ _ _ _ base)
      | exact framedFrom_set _ _ _ _ (framedFrom_set _ _ _ _ (framedFrom_set _ _ _ _ base))
      | exact framedFrom_initSt _ _ _ _ _ pfFrame_created _ _ _
          (framedFrom_append _ _ _ _ (framedFrom_set _ _ _ _ base))
      | exact framedFrom_initSt _ _ _ _ _ pfFrame_created _ _ _
          (framedFrom_append _ _ _ _ (framedFrom_set _ _ _ _ (framedFrom_set _ _ _ _ base)))
      | exact framedFrom_initSt _ _ _ _ _ pfFrame_created _ _ _
          (framedFrom_append _ _ _ _
            (framedFrom_set _ _ _ _ (framedFrom_set _ _ _ _ (framedFrom_set _ _ _ _ base))))

/-!  Error characterisation of each variant's construction. -/

theorem merchant_new_err (fields : JMap) :
    (MonzoMerchant.new fields none).2
      = if (missingOf MonzoMerchant.required_keys fields).isEmpty then none
        else some (PyError.valueError (missingOf MonzoMerchant.required_keys fields)) := by
  by_cases h : (missingOf MonzoMerchant.required_keys fields).isEmpty
  · rw [if_pos h]
    exact merchant_new_snd fields (List.isEmpty_iff.mp h)
  · rw [if_neg h]
    have hne : missingOf MonzoMerchant.required_keys fields ≠ [] := by
      intro he; exact h (by simp [he])
    unfold MonzoMerchant.new
    rw [init_of_missing _ _ _ _ _ hne]

theorem tx_err_core (dc : JMap) (s2 : Dict) (d2 : JMap)
    (hm2 : alookup "merchant" d2 = alookup "merchant" dc) :
    (match alookup "merchant" d2 with
      | some mj =>
        if mj.truthy && !mj.isTextType then
          match mj with
          | Json.obj fields =>
            match MonzoMerchant.new fields none with
            | (_, some e) => (s2, eraseKey "merchant" d2, some e)
            | (mdict, none) =>
              (dictSet s2 "merchant" (Attr.merchantRec mdict), eraseKey "merchant" d2, none)
          | Json.arr elems =>
            (s2, eraseKey "merchant" d2,
              if (missingOfList MonzoMerchant.required_keys elems).isEmpty then
                some PyError.typeError
              else some (PyError.valueError (missingOfList MonzoMerchant.required_keys elems)))
          | _ => (s2, eraseKey "merchant" d2, some PyError.typeError)
        else (s2, d2, none)
      | none => (s2, d2, none)).2.2
    = txMerchantErr dc := by
  rw [hm2]
  unfold txMerchantErr
  rcases hmv : alookup "merchant" dc with _ | mj
  · rfl
  · cases mj with
    | obj fields =>
      dsimp only
      by_cases hcond : ((Json.obj fields).truthy && !(Json.obj fields).isTextType) = true
      · simp only [if_pos hcond]
        rw [← merchant_new_err fields]
        rcases hmn : MonzoMerchant.new fields none with ⟨md, me⟩
        cases me <;> rfl
      · have h2 := Bool.eq_false_iff.mpr hcond
        simp only [h2, Bool.false_eq_true, if_false]
    | str s => dsimp only; split <;> rfl
    | num n => dsimp only; split <;> rfl
    | bool b => dsimp only; split <;> rfl
    | null => dsimp only; split <;> rfl
    | arr l => dsimp only; split <;> rfl

theorem tx_parse_err (self : Dict) (dc : JMap) (cj : Json)
    (hc : alookup "created" dc = some cj) :
    (MonzoTransaction.parse_special_fields self dc).2.2 = txMerchantErr dc := by
  have hs : alookup "settled" (eraseKey "created" dc) = alookup "settled" dc := by
    rw [alookup_eraseKey]; simp
  have hm1 : alookup "merchant" (eraseKey "created" dc) = alookup "merchant" dc := by
    rw [alookup_eraseKey]; simp
  have hm2 : alookup "merchant" (eraseKey "settled" (eraseKey "created" dc))
      = alookup "merchant" dc := by
    rw [alookup_eraseKey, hm1]; simp
  unfold MonzoTransaction.parse_special_fields
  rw [hc]
  dsimp only
  simp only [hs]
  rcases hsv : alookup "settled" dc with _ | sj
  · exact tx_err_core dc _ _ hm1
  · by_cases ht : sj.truthy = true
    · simp only [if_pos ht]
      exact tx_err_core dc _ _ hm2
    · have ht2 : sj.truthy = false := Bool.eq_false_iff.mpr ht
      simp only [ht2, Bool.false_eq_true, if_false]
      exact tx_err_core dc _ _ hm1

theorem tx_init_err (self0 : Dict) (ctx : Option Nat) (data : JMap) (cj : Json)
    (hc : alookup "created" data = some cj)
    (hmiss : missingOf MonzoTransaction.required_keys data = []) :
    (MonzoObject.init MonzoTransaction.required_keys
      MonzoTransaction.parse_special_fields self0 ctx data).2 = txMerchantErr data := by
  have hperr := tx_parse_err (dictSet self0 "_raw_data" (Attr.rawData data)) data cj hc
  have hie : (missingOf MonzoTransaction.required_keys data).isEmpty = true := by
    simp [hmiss]
  unfold MonzoObject.init
  dsimp only
  simp only [hie, if_true]
  rcases hp : MonzoTransaction.parse_special_fields
      (dictSet self0 "_raw_data" (Attr.rawData data)) data with ⟨s2, dc2, err⟩
  rw [hp] at hperr
  cases err with
  | some e => exact hperr
  | none => exact hperr

theorem init_created_err (K : List String) (self0 : Dict) (ctx : Option Nat)
    (data : JMap) (hK : "created" ∈ K) :
    (MonzoObject.init K parse_created self0 ctx data).2
      = if (missingOf K data).isEmpty then none
        else some (PyError.valueError (missingOf K data)) := by
  by_cases h : (missingOf K data).isEmpty
  · rw [if_pos h]
    have hmiss := List.isEmpty_iff.mp h
    obtain ⟨cj, hc⟩ :=
      Option.isSome_iff_exists.mp ((missingOf_eq_nil K data).mp hmiss "created" hK)
    have hpf : parse_created (dictSet self0 "_raw_data" (Attr.rawData data)) data
        = (dictSet (dictSet self0 "_raw_data" (Attr.rawData data)) "created"
            (Attr.date (parse_date cj)), eraseKey "created" data, none) := by
      simp [parse_created, hc]
    rw [init_of_parse _ _ _ _ _ _ _ hmiss hpf]
  · rw [if_neg h]
    have hne : missingOf K data ≠ [] := by intro he; exact h (by simp [he])
    rw [init_of_missing _ _ _ _ _ hne]

theorem init_base_err (K : List String) (self0 : Dict) (ctx : Option Nat) (data : JMap) :
    (MonzoObject.init K MonzoObject.parse_special_fields self0 ctx data).2
      = if (missingOf K data).isEmpty then none
        else some (PyError.valueError (missingOf K data)) := by
  by_cases h : (missingOf K data).isEmpty
  · rw [if_pos h]
    rw [init_of_parse _ _ _ _ _ _ _ (List.isEmpty_iff.mp h) rfl]
  · rw [if_neg h]
    have hne : missingOf K data ≠ [] := by intro he; exact h (by simp [he])
    rw [init_of_missing _ _ _ _ _ hne]

theorem tx_init_err_full (self0 : Dict) (ctx : Option Nat) (data : JMap) :
    (MonzoObject.init MonzoTransaction.required_keys
      MonzoTransaction.parse_special_fields self0 ctx data).2
      = if (missingOf MonzoTransaction.required_keys data).isEmpty then txMerchantErr data
        else some (PyError.valueError (missingOf MonzoTransaction.required_keys data)) := by
  by_cases h : (missingOf MonzoTransaction.required_keys data).isEmpty
  · rw [if_pos h]
    have hmiss := List.isEmpty_iff.mp h
    obtain ⟨cj, hc⟩ :=
      Option.isSome_iff_exists.mp
        ((missingOf_eq_nil _ data).mp hmiss "created" (by decide))
    exact tx_init_err self0 ctx data cj hc hmiss
  · rw [if_neg h]
    have hne : missingOf MonzoTransaction.required_keys data ≠ [] := by
      intro he; exact h (by simp [he])
    rw [init_of_missing _ _ _ _ _ hne]

theorem init_created_vs_fresh (K : List String) (self0 : Dict) (ctx : Option Nat)
    (data : JMap) (hK : "created" ∈ K)
    (hnd : (keysOf data).Nodup)
    (hmiss : missingOf K data = []) :
    (MonzoObject.init K parse_created self0 ctx data).2 = none ∧
    ∀ k, alookup k (MonzoObject.init K parse_created self0 ctx data).1
      = ((alookup k (MonzoObject.init K parse_created [] ctx data).1).orElse
          (fun _ => alookup k self0)) := by
  obtain ⟨cj, hc⟩ :=
    Option.isSome_iff_exists.mp ((missingOf_eq_nil K data).mp hmiss "created" hK)
  obtain ⟨herr, hlook⟩ := init_created_spec K self0 ctx data cj hnd hc hmiss
  obtain ⟨_, hlook0⟩ := init_created_spec K [] ctx data cj hnd hc hmiss
  refine ⟨herr, fun k => ?_⟩
  rw [hlook k, hlook0 k]
  by_cases hk1 : k = "_context"
  · simp [hk1, Option.some_orElse']
  · rw [if_neg hk1, if_neg hk1]
    by_cases hk2 : k = "created"
    · simp [hk2, Option.some_orElse']
    · rw [if_neg hk2, if_neg hk2]
      cases hd : alookup k data with
      | some v => simp [Option.some_orElse']
      | none =>
        by_cases hk3 : k = "_raw_data"
        · simp [hk3, Option.some_orElse']
        · simp [hk3, alookup, Option.none_orElse']

/-!  Claim theorems. -/

/-- C1 counterexample: a transaction input that holds every key of
`MonzoTransaction._required_keys` still raises `ValueError`, because its
truthy non-string merchant mapping is missing required merchant keys —
so "raises ValueError iff a required key of the variant is absent" is
false as stated. -/
theorem C1_counterexample :
    missingOf MonzoTransaction.required_keys txBadMerchant = [] ∧
    (MonzoTransaction.new txBadMerchant none).2
      = some (PyError.valueError
          ["address", "created", "group_id", "logo", "emoji", "name", "category"]) :=
  ⟨rfl, rfl⟩

/-- C1 (amended): for Account, Pot, Balance and Merchant, construction
raises `ValueError` (listing the missing keys) exactly when a required
key is absent, and succeeds otherwise.  For Transaction, a missing
required key likewise raises `ValueError`; when all nine are present
the outcome is `txMerchantErr`: no exception unless the merchant value
is truthy and non-string, in which case the nested `MonzoMerchant`
construction governs — a mapping missing required merchant keys raises
`ValueError` listing them, a list raises `ValueError` listing the
merchant keys not among its elements (Python's `in` works on lists) or
`TypeError` from the later `created` pop when every key string appears,
and any other value raises `TypeError` from the membership test. -/
theorem C1_required_key_validation (data : JMap) (ctx : Option Nat) :
    ((MonzoAccount.new data ctx).2
      = if (missingOf MonzoAccount.required_keys data).isEmpty then none
        else some (PyError.valueError (missingOf MonzoAccount.required_keys data))) ∧
    ((MonzoPot.new data ctx).2
      = if (missingOf MonzoPot.required_keys data).isEmpty then none
        else some (PyError.valueError (missingOf MonzoPot.required_keys data))) ∧
    ((MonzoBalance.new data ctx).2
      = if (missingOf MonzoBalance.required_keys data).isEmpty then none
        else some (PyError.valueError (missingOf MonzoBalance.required_keys data))) ∧
    ((MonzoMerchant.new data ctx).2
      = if (missingOf MonzoMerchant.required_keys data).isEmpty then none
        else some (PyError.valueError (missingOf MonzoMerchant.required_keys data))) ∧
    ((MonzoTransaction.new data ctx).2
      = if (missingOf MonzoTransaction.required_keys data).isEmpty then txMerchantErr data
        else some (PyError.valueError (missingOf MonzoTransaction.required_keys data))) :=
  ⟨init_created_err _ _ _ _ (by decide), init_created_err _ _ _ _ (by decide),
   init_base_err _ _ _ _, init_created_err _ _ _ _ (by decide),
   tx_init_err_full _ _ _⟩

/-- C6 counterexample: a transaction whose nested merchant validation
fails raises after `_raw_data` and `created` were already set on the
object, so "a construction that raises leaves no attributes set" is
false as stated. -/
theorem C6_counterexample :
    (MonzoTransaction.new txBadMerchant none).2
      = some (PyError.valueError
          ["address", "created", "group_id", "logo", "emoji", "name", "category"]) ∧
    alookup "_raw_data" (MonzoTransaction.new txBadMerchant none).1
      = some (Attr.rawData txBadMerchant) ∧
    alookup "created" (MonzoTransaction.new txBadMerchant none).1
      = some (Attr.date (parse_date (Json.str "2018-01-01T00:00:00Z"))) ∧
    ¬ (MonzoTransaction.new txBadMerchant none).1 = [] := by
  have hval : alookup "_raw_data" (MonzoTransaction.new txBadMerchant none).1
      = some (Attr.rawData txBadMerchant) := rfl
  refine ⟨rfl, hval, rfl, fun h => ?_⟩
  rw [h] at hval
  exact Option.noConfusion hval

/-- C6 (amended): construction is validate-then-map with respect to the
required-key check: whenever that check fails, `ValueError` carrying the
missing keys is raised before any field is mapped, the object keeps its
prior attribute dict, and a fresh object ends with no attributes set.
(A transaction raising later, inside nested merchant validation, can
leave `_raw_data` and `created` already set.) -/
theorem C6_validate_then_map (K : List String) (pf : ParseFun) (self0 : Dict)
    (ctx : Option Nat) (data : JMap) (h : missingOf K data ≠ []) :
    MonzoObject.init K pf self0 ctx data
      = (self0, some (PyError.valueError (missingOf K data))) ∧
    (MonzoObject.init K pf [] ctx data).1 = [] := by
  refine ⟨init_of_missing K pf self0 ctx data h, ?_⟩
  rw [init_of_missing K pf [] ctx data h]

/-- C6 witness: the empty mapping fails account validation; the error
lists all required keys and no attribute is set. -/
theorem C6_witness :
    missingOf MonzoAccount.required_keys [] ≠ [] ∧
    MonzoObject.init MonzoAccount.required_keys parse_created [] none []
      = ([], some (PyError.valueError (missingOf MonzoAccount.required_keys []))) :=
  ⟨by decide,
   (C6_validate_then_map MonzoAccount.required_keys parse_created [] none [] (by decide)).1⟩

/-- C7: the five record variants are the single base routine
`MonzoObject.init` specialised only by their required-key list and
their special-field parser, Balance using the base (no-op) parser. -/
theorem C7_shared_base_routine :
    (∀ data ctx, MonzoAccount.new data ctx
      = MonzoObject.init MonzoAccount.required_keys parse_created [] ctx data) ∧
    (∀ data ctx, MonzoPot.new data ctx
      = MonzoObject.init MonzoPot.required_keys parse_created [] ctx data) ∧
    (∀ data ctx, MonzoBalance.new data ctx
      = MonzoObject.init MonzoBalance.required_keys MonzoObject.parse_special_fields [] ctx data) ∧
    (∀ data ctx, MonzoTransaction.new data ctx
      = MonzoObject.init MonzoTransaction.required_keys
          MonzoTransaction.parse_special_fields [] ctx data) ∧
    (∀ data ctx, MonzoMerchant.new data ctx
      = MonzoObject.init MonzoMerchant.required_keys parse_created [] ctx data) ∧
    (∀ self dc, MonzoObject.parse_special_fields self dc = (self, dc, none)) :=
  ⟨fun _ _ => rfl, fun _ _ => rfl, fun _ _ => rfl, fun _ _ => rfl,
   fun _ _ => rfl, fun _ _ => rfl⟩

/-- C2 counterexample: a pot's `updated` value, present as text, is
stored as the raw string and not parsed into a timestamp, so "`created`,
`updated` and `settled` are parsed from text into timestamps" is false
as stated. -/
theorem C2_counterexample :
    (MonzoPot.new uniSample (some 0)).2 = none ∧
    alookup "updated" (MonzoPot.new uniSample (some 0)).1
      = some (Attr.raw (Json.str "2018-01-02T10:23:45Z")) ∧
    ¬ alookup "updated" (MonzoPot.new uniSample (some 0)).1
      = some (Attr.date (parse_date (Json.str "2018-01-02T10:23:45Z"))) := by
  have hval : alookup "updated" (MonzoPot.new uniSample (some 0)).1
      = some (Attr.raw (Json.str "2018-01-02T10:23:45Z")) := rfl
  refine ⟨rfl, hval, fun h => ?_⟩
  rw [hval] at h
  simp at h

/-- C2 (amended): `created` is parsed into a timestamp on Account, Pot,
Transaction and Merchant; on Transaction `settled` is parsed only when
present and truthy; `updated` is never parsed (a pot stores its
`updated` value raw); Balance parses no fields (its `created` value
stays raw). -/
theorem C2_date_parsing (data : JMap) (ctx : Option Nat) (cj : Json)
    (hnd : (keysOf data).Nodup)
    (hc : alookup "created" data = some cj) :
    (missingOf MonzoAccount.required_keys data = [] →
      alookup "created" (MonzoAccount.new data ctx).1 = some (Attr.date (parse_date cj))) ∧
    (missingOf MonzoPot.required_keys data = [] →
      alookup "created" (MonzoPot.new data ctx).1 = some (Attr.date (parse_date cj)) ∧
      alookup "updated" (MonzoPot.new data ctx).1 = (alookup "updated" data).map Attr.raw) ∧
    (missingOf MonzoMerchant.required_keys data = [] →
      alookup "created" (MonzoMerchant.new data ctx).1 = some (Attr.date (parse_date cj))) ∧
    (missingOf MonzoBalance.required_keys data = [] →
      alookup "created" (MonzoBalance.new data ctx).1 = some (Attr.raw cj)) ∧
    (missingOf MonzoTransaction.required_keys data = [] → txMerchantErr data = none →
      alookup "created" (MonzoTransaction.new data ctx).1 = some (Attr.date (parse_date cj)) ∧
      ∀ sj, alookup "settled" data = some sj → sj.truthy = true →
        alookup "settled" (MonzoTransaction.new data ctx).1
          = some (Attr.date (parse_date sj))) := by
  refine ⟨?_, ?_, ?_, ?_, ?_⟩
  · intro hmiss
    have h := (init_created_spec MonzoAccount.required_keys [] ctx data cj hnd hc hmiss).2 "created"
    simp only [MonzoAccount.new]
    rw [h]
    simp
  · intro hmiss
    constructor
    · have h := (init_created_spec MonzoPot.required_keys [] ctx data cj hnd hc hmiss).2 "created"
      simp only [MonzoPot.new]
      rw [h]
      simp
    · have h := (init_created_spec MonzoPot.required_keys [] ctx data cj hnd hc hmiss).2 "updated"
      simp only [MonzoPot.new]
      rw [h]
      cases hu : alookup "updated" data <;> simp [alookup]
  · intro hmiss
    have h := (init_created_spec MonzoMerchant.required_keys [] ctx data cj hnd hc hmiss).2 "created"
    simp only [MonzoMerchant.new]
    rw [h]
    simp
  · intro hmiss
    have h := (init_base_spec MonzoBalance.required_keys [] ctx data hnd hmiss).2 "created"
    simp only [MonzoBalance.new]
    rw [h, hc]
    simp
  · intro hmiss hok
    constructor
    · have h := (tx_init_spec [] ctx data cj hnd hc hmiss hok).2 "created"
      simp only [MonzoTransaction.new]
      rw [h, alookup_txDcOut_created]
      simp [alookup_txSelfOut_created]
    · intro sj hsj htr
      have h := (tx_init_spec [] ctx data cj hnd hc hmiss hok).2 "settled"
      simp only [MonzoTransaction.new]
      rw [h, alookup_txDcOut_settled, hsj]
      simp only [htr, if_true]
      rw [alookup_txSelfOut_settled, hsj]
      simp [htr]

/-- C2 witness: on a concrete full input, account `created` is parsed
and pot `updated` is mapped raw. -/
theorem C2_witness :
    (keysOf uniSample).Nodup ∧
    alookup "created" (MonzoAccount.new uniSample (some 0)).1
      = some (Attr.date (parse_date (Json.str "2018-01-01T10:23:45Z"))) ∧
    alookup "updated" (MonzoPot.new uniSample (some 0)).1
      = (alookup "updated" uniSample).map Attr.raw := by
  have h := C2_date_parsing uniSample (some 0) (Json.str "2018-01-01T10:23:45Z") (by decide) rfl
  exact ⟨by decide, h.1 rfl, (h.2.1 rfl).2⟩

/-- C3 counterexample: a transaction whose merchant value is the empty
(hence falsy) mapping keeps it as a raw object attribute without
building a `MonzoMerchant` record, so "every non-string object merchant
becomes a Merchant record" is false as stated. -/
theorem C3_counterexample :
    (MonzoTransaction.new txEmptyMerchant none).2 = none ∧
    alookup "merchant" (MonzoTransaction.new txEmptyMerchant none).1
      = some (Attr.raw (Json.obj [])) ∧
    (alookup "merchant" (MonzoTransaction.new txEmptyMerchant none).1).map Attr.isMerchantRecB
      = some false :=
  ⟨rfl, rfl, rfl⟩

/-- C3 (amended): on a successfully constructed transaction, a truthy
(non-empty) non-string merchant mapping is replaced by a nested
`MonzoMerchant` record built from it; an identifier-string merchant is
kept as that string unchanged; a falsy merchant value (such as the
empty mapping) is also kept raw. -/
theorem C3_merchant_discrimination (data : JMap) (ctx : Option Nat) (cj : Json)
    (hnd : (keysOf data).Nodup)
    (hc : alookup "created" data = some cj)
    (hmiss : missingOf MonzoTransaction.required_keys data = [])
    (hok : txMerchantErr data = none) :
    (∀ fields, alookup "merchant" data = some (Json.obj fields) →
        (Json.obj fields).truthy = true →
        alookup "merchant" (MonzoTransaction.new data ctx).1
          = some (Attr.merchantRec (MonzoMerchant.new fields none).1)) ∧
    (∀ s, alookup "merchant" data = some (Json.str s) →
        alookup "merchant" (MonzoTransaction.new data ctx).1
          = some (Attr.raw (Json.str s))) ∧
    (∀ mj, alookup "merchant" data = some mj → mj.truthy = false →
        alookup "merchant" (MonzoTransaction.new data ctx).1 = some (Attr.raw mj)) := by
  have h := (tx_init_spec [] ctx data cj hnd hc hmiss hok).2 "merchant"
  rw [alookup_txDcOut_merchant] at h
  refine ⟨?_, ?_, ?_⟩
  · intro fields hm ht
    simp only [MonzoTransaction.new]
    rw [h, hm]
    simp only [ht, if_true]
    rw [alookup_txSelfOut_merchant, hm]
    simp [ht]
  · intro s hm
    simp only [MonzoTransaction.new]
    rw [h, hm]
    simp
  · intro mj hm ht
    simp only [MonzoTransaction.new]
    rw [h, hm]
    cases mj <;> simp_all

/-- C3 witness: the full sample input carries a truthy merchant mapping
and the constructed transaction holds the nested merchant record. -/
theorem C3_witness :
    alookup "merchant" uniSample = some (Json.obj merchantSample) ∧
    alookup "merchant" (MonzoTransaction.new uniSample (some 0)).1
      = some (Attr.merchantRec (MonzoMerchant.new merchantSample none).1) := by
  have h := C3_merchant_discrimination uniSample (some 0) (Json.str "2018-01-01T10:23:45Z")
    (by decide) rfl rfl rfl
  exact ⟨rfl, h.1 merchantSample rfl rfl⟩

/-- C10: on a successfully constructed transaction whose `settled` key
is present, the value is parsed into a timestamp exactly when it is
truthy; a falsy value (such as the empty string) is mapped raw and
unchanged. -/
theorem C10_settled_truthiness (data : JMap) (ctx : Option Nat) (cj sv : Json)
    (hnd : (keysOf data).Nodup)
    (hc : alookup "created" data = some cj)
    (hmiss : missingOf MonzoTransaction.required_keys data = [])
    (hok : txMerchantErr data = none)
    (hsv : alookup "settled" data = some sv) :
    alookup "settled" (MonzoTransaction.new data ctx).1
      = if sv.truthy then some (Attr.date (parse_date sv))
        else some (Attr.raw sv) := by
  have h := (tx_init_spec [] ctx data cj hnd hc hmiss hok).2 "settled"
  simp only [MonzoTransaction.new]
  rw [h, alookup_txDcOut_settled, hsv]
  by_cases ht : sv.truthy = true
  · simp only [ht, if_true]
    rw [alookup_txSelfOut_settled, hsv]
    simp [ht]
  · have ht2 : sv.truthy = false := Bool.eq_false_iff.mpr ht
    simp [ht2]

/-- C10 witness: a transaction input whose `settled` value is the falsy
empty string keeps it raw. -/
theorem C10_witness :
    alookup "settled" txSettledFalsy = some (Json.str "") ∧
    alookup "settled" (MonzoTransaction.new txSettledFalsy none).1
      = if (Json.str "").truthy then some (Attr.date (parse_date (Json.str "")))
        else some (Attr.raw (Json.str "")) :=
  ⟨rfl,
   C10_settled_truthiness txSettledFalsy none (Json.str "2018-01-01T00:00:00Z") (Json.str "")
     (by decide) rfl rfl rfl rfl⟩

/-- C4 counterexample: after a deposit, the pot is not equal to a fresh
pot built from the response: a stale attribute (`amount`) from the
pot's earlier construction survives re-initialisation because
`__init__` only updates keys, so "afterwards the pot's fields equal
those of a fresh MonzoPot constructed from the response" is false as
stated. -/
theorem C4_counterexample :
    (depositCx.map (fun r => r.2.2)) = some none ∧
    (depositCx.map (fun r => alookup "amount" r.2.1))
      = some (some (Attr.raw (Json.num (-250)))) ∧
    alookup "amount" (MonzoPot.new potRespSample (some 0)).1 = none :=
  ⟨rfl, rfl, rfl⟩

/-- C4 (amended): `deposit` and `withdraw` each issue exactly one HTTP
PUT through the delegated context — to `/pots/<id>/deposit` with body
keys `source_account_id`, `amount`, `dedupe_id`, respectively to
`/pots/<id>/withdraw` with `destination_account_id`, `amount`,
`dedupe_id` — and then re-run `__init__` on the existing pot dict with
the response JSON and the same context.  This requires the pot to hold
a live (non-`None`) context: with context `None` the source raises
`AttributeError` at `self._context._get_response` and issues no
request.  Then each field is the
fresh pot's value when the re-initialisation wrote it, and the old
pot's value otherwise (stale attributes persist). -/
theorem C4_deposit_withdraw (beh : ContextBehavior) (log : List Request) (pot : Dict)
    (amount : Json) (account : Dict) (dedupe : Json) (pid : String) (c : Nat)
    (respD respW : JMap)
    (hid : alookup "id" pot = some (Attr.raw (Json.str pid)))
    (hctx : alookup "_context" pot = some (Attr.context (some c)))
    (hrespD : beh ⟨"put", "/pots/" ++ pid ++ "/deposit",
        [("source_account_id", (alookup "id" account).getD (Attr.raw Json.null)),
         ("amount", Attr.raw amount), ("dedupe_id", Attr.raw dedupe)]⟩ = respD)
    (hndD : (keysOf respD).Nodup)
    (hmissD : missingOf MonzoPot.required_keys respD = [])
    (hrespW : beh ⟨"put", "/pots/" ++ pid ++ "/withdraw",
        [("destination_account_id", (alookup "id" account).getD (Attr.raw Json.null)),
         ("amount", Attr.raw amount), ("dedupe_id", Attr.raw dedupe)]⟩ = respW)
    (hndW : (keysOf respW).Nodup)
    (hmissW : missingOf MonzoPot.required_keys respW = []) :
    (MonzoPot.deposit beh log pot amount account dedupe
      = some (log ++ [⟨"put", "/pots/" ++ pid ++ "/deposit",
          [("source_account_id", (alookup "id" account).getD (Attr.raw Json.null)),
           ("amount", Attr.raw amount), ("dedupe_id", Attr.raw dedupe)]⟩],
          MonzoObject.init MonzoPot.required_keys parse_created pot (some c) respD)) ∧
    (MonzoObject.init MonzoPot.required_keys parse_created pot (some c) respD).2 = none ∧
    (∀ k, alookup k (MonzoObject.init MonzoPot.required_keys parse_created pot (some c) respD).1
      = ((alookup k (MonzoPot.new respD (some c)).1).orElse (fun _ => alookup k pot))) ∧
    (MonzoPot.withdraw beh log pot amount account dedupe
      = some (log ++ [⟨"put", "/pots/" ++ pid ++ "/withdraw",
          [("destination_account_id", (alookup "id" account).getD (Attr.raw Json.null)),
           ("amount", Attr.raw amount), ("dedupe_id", Attr.raw dedupe)]⟩],
          MonzoObject.init MonzoPot.required_keys parse_created pot (some c) respW)) ∧
    (MonzoObject.init MonzoPot.required_keys parse_created pot (some c) respW).2 = none ∧
    (∀ k, alookup k (MonzoObject.init MonzoPot.required_keys parse_created pot (some c) respW).1
      = ((alookup k (MonzoPot.new respW (some c)).1).orElse (fun _ => alookup k pot))) := by
  obtain ⟨herrD, hlookD⟩ :=
    init_created_vs_fresh MonzoPot.required_keys pot (some c) respD (by decide) hndD hmissD
  obtain ⟨herrW, hlookW⟩ :=
    init_created_vs_fresh MonzoPot.required_keys pot (some c) respW (by decide) hndW hmissW
  refine ⟨?_, herrD, hlookD, ?_, herrW, hlookW⟩
  · unfold MonzoPot.deposit getResponse
    rw [hid, hctx]
    dsimp only
    rw [hrespD]
  · unfold MonzoPot.withdraw getResponse
    rw [hid, hctx]
    dsimp only
    rw [hrespW]

/-- C4 witness: a concrete deposit on a pot with a stale attribute. -/
theorem C4_witness :
    (keysOf potRespSample).Nodup ∧
    (MonzoObject.init MonzoPot.required_keys parse_created potStale (some 0) potRespSample).2
      = none ∧
    MonzoPot.deposit behSample [] potStale (Json.num 10) acctSample (Json.str "dd_1")
      = some ([] ++ [⟨"put", "/pots/" ++ "acc_1" ++ "/deposit",
          [("source_account_id", (alookup "id" acctSample).getD (Attr.raw Json.null)),
           ("amount", Attr.raw (Json.num 10)), ("dedupe_id", Attr.raw (Json.str "dd_1"))]⟩],
          MonzoObject.init MonzoPot.required_keys parse_created potStale (some 0) potRespSample) := by
  have h := C4_deposit_withdraw behSample [] potStale (Json.num 10) acctSample (Json.str "dd_1")
    "acc_1" 0 potRespSample potRespSample rfl rfl rfl (by decide) rfl rfl (by decide) rfl
  exact ⟨by decide, h.2.1, h.1⟩

/-- C5 counterexample: an input key named `_context` does not keep its
input value: the final `self._context = context` assignment overwrites
it, so "every non-special input key becomes an attribute with exactly
the input's value" is false as stated. -/
theorem C5_counterexample :
    (MonzoAccount.new accCtxKeySample (some 7)).2 = none ∧
    alookup "_context" accCtxKeySample = some (Json.str "boo") ∧
    alookup "_context" (MonzoAccount.new accCtxKeySample (some 7)).1
      = some (Attr.context (some 7)) ∧
    ¬ alookup "_context" (MonzoAccount.new accCtxKeySample (some 7)).1
      = some (Attr.raw (Json.str "boo")) := by
  have hval : alookup "_context" (MonzoAccount.new accCtxKeySample (some 7)).1
      = some (Attr.context (some 7)) := rfl
  refine ⟨rfl, rfl, hval, fun h => ?_⟩
  rw [hval] at h
  simp at h

/-- C5 (amended): on a successful construction, every input key other
than `_context` that is not a parsed special field — `created`, and on
transactions a truthy `settled` or a truthy non-string `merchant` —
becomes an attribute holding exactly the input's value; an input key
named `_context` is overwritten by the supplied context after
mapping. -/
theorem C5_field_transcription (data : JMap) (ctx : Option Nat) (k : String) (v : Json)
    (hnd : (keysOf data).Nodup)
    (hkv : alookup k data = some v)
    (hkctx : ¬ k = "_context")
    (hkcr : ¬ k = "created") :
    (missingOf MonzoAccount.required_keys data = [] →
      alookup k (MonzoAccount.new data ctx).1 = some (Attr.raw v)) ∧
    (missingOf MonzoPot.required_keys data = [] →
      alookup k (MonzoPot.new data ctx).1 = some (Attr.raw v)) ∧
    (missingOf MonzoBalance.required_keys data = [] →
      alookup k (MonzoBalance.new data ctx).1 = some (Attr.raw v)) ∧
    (missingOf MonzoMerchant.required_keys data = [] →
      alookup k (MonzoMerchant.new data ctx).1 = some (Attr.raw v)) ∧
    (∀ cjv, alookup "created" data = some cjv →
      missingOf MonzoTransaction.required_keys data = [] → txMerchantErr data = none →
      (k = "settled" → v.truthy = false) →
      (k = "merchant" → v.truthy = false ∨ v.isTextType = true) →
      alookup k (MonzoTransaction.new data ctx).1 = some (Attr.raw v)) := by
  refine ⟨?_, ?_, ?_, ?_, ?_⟩
  · intro hmiss
    obtain ⟨cj2, hc2⟩ :=
      Option.isSome_iff_exists.mp ((missingOf_eq_nil _ _).mp hmiss "created" (by decide))
    have h := (init_created_spec MonzoAccount.required_keys [] ctx data cj2 hnd hc2 hmiss).2 k
    simp only [MonzoAccount.new]
    rw [h, if_neg hkctx, if_neg hkcr, hkv]
  · intro hmiss
    obtain ⟨cj2, hc2⟩ :=
      Option.isSome_iff_exists.mp ((missingOf_eq_nil _ _).mp hmiss "created" (by decide))
    have h := (init_created_spec MonzoPot.required_keys [] ctx data cj2 hnd hc2 hmiss).2 k
    simp only [MonzoPot.new]
    rw [h, if_neg hkctx, if_neg hkcr, hkv]
  · intro hmiss
    have h := (init_base_spec MonzoBalance.required_keys [] ctx data hnd hmiss).2 k
    simp only [MonzoBalance.new]
    rw [h, if_neg hkctx, hkv]
  · intro hmiss
    obtain ⟨cj2, hc2⟩ :=
      Option.isSome_iff_exists.mp ((missingOf_eq_nil _ _).mp hmiss "created" (by decide))
    have h := (init_created_spec MonzoMerchant.required_keys [] ctx data cj2 hnd hc2 hmiss).2 k
    simp only [MonzoMerchant.new]
    rw [h, if_neg hkctx, if_neg hkcr, hkv]
  · intro cjv hc hmiss hok hs hm
    have h := (tx_init_spec [] ctx data cjv hnd hc hmiss hok).2 k
    have hkctx' : ¬ "_context" = k := fun he => hkctx he.symm
    simp only [MonzoTransaction.new]
    rw [h, if_neg hkctx']
    by_cases hks : k = "settled"
    · subst hks
      rw [alookup_txDcOut_settled, hkv]
      have hv := hs rfl
      simp [hv]
    · by_cases hkm : k = "merchant"
      · subst hkm
        rw [alookup_txDcOut_merchant, hkv]
        rcases hm rfl with hf | ht
        · cases v <;> simp_all
        · cases v <;> simp_all [Json.isTextType]
      · rw [alookup_txDcOut_other data k hkcr hks hkm, hkv]

/-- C5 witness: a concrete non-special key (`currency`) is transcribed
unchanged on an account and on a transaction. -/
theorem C5_witness :
    alookup "currency" uniSample = some (Json.str "GBP") ∧
    alookup "currency" (MonzoAccount.new uniSample (some 0)).1
      = some (Attr.raw (Json.str "GBP")) ∧
    alookup "currency" (MonzoTransaction.new uniSample (some 0)).1
      = some (Attr.raw (Json.str "GBP")) := by
  have h := C5_field_transcription uniSample (some 0) "currency" (Json.str "GBP")
    (by decide) rfl (by decide) (by decide)
  exact ⟨rfl, h.1 rfl,
    h.2.2.2.2 (Json.str "2018-01-01T10:23:45Z") rfl rfl rfl (by decide) (by decide)⟩

/-- C9 counterexample: an input key named `_raw_data` overwrites the
copy during `__dict__.update`, so "the `_raw_data` attribute is always
an exact copy of the input mapping" is false as stated. -/
theorem C9_counterexample :
    (MonzoAccount.new accRawDataKeySample none).2 = none ∧
    alookup "_raw_data" accRawDataKeySample = some (Json.str "x") ∧
    alookup "_raw_data" (MonzoAccount.new accRawDataKeySample none).1
      = some (Attr.raw (Json.str "x")) ∧
    ¬ alookup "_raw_data" (MonzoAccount.new accRawDataKeySample none).1
      = some (Attr.rawData accRawDataKeySample) := by
  have hval : alookup "_raw_data" (MonzoAccount.new accRawDataKeySample none).1
      = some (Attr.raw (Json.str "x")) := rfl
  refine ⟨rfl, rfl, hval, fun h => ?_⟩
  rw [hval] at h
  simp at h

/-- C9 (amended): every record successfully constructed from a mapping
that has no key named `_raw_data` keeps, in its `_raw_data` attribute,
an exact copy of the original input mapping, with the special fields
still in their unparsed form; the parsing steps pop keys only from the
separate data copy and never alter it. -/
theorem C9_raw_data_copy (data : JMap) (ctx : Option Nat)
    (hnd : (keysOf data).Nodup)
    (habs : alookup "_raw_data" data = none) :
    (missingOf MonzoAccount.required_keys data = [] →
      alookup "_raw_data" (MonzoAccount.new data ctx).1 = some (Attr.rawData data)) ∧
    (missingOf MonzoPot.required_keys data = [] →
      alookup "_raw_data" (MonzoPot.new data ctx).1 = some (Attr.rawData data)) ∧
    (missingOf MonzoBalance.required_keys data = [] →
      alookup "_raw_data" (MonzoBalance.new data ctx).1 = some (Attr.rawData data)) ∧
    (missingOf MonzoMerchant.required_keys data = [] →
      alookup "_raw_data" (MonzoMerchant.new data ctx).1 = some (Attr.rawData data)) ∧
    (∀ cjv, alookup "created" data = some cjv →
      missingOf MonzoTransaction.required_keys data = [] → txMerchantErr data = none →
      alookup "_raw_data" (MonzoTransaction.new data ctx).1 = some (Attr.rawData data)) := by
  refine ⟨?_, ?_, ?_, ?_, ?_⟩
  · intro hmiss
    obtain ⟨cj2, hc2⟩ :=
      Option.isSome_iff_exists.mp ((missingOf_eq_nil _ _).mp hmiss "created" (by decide))
    have h := (init_created_spec MonzoAccount.required_keys [] ctx data cj2 hnd hc2 hmiss).2 "_raw_data"
    simp only [MonzoAccount.new]
    rw [h, habs]
    simp
  · intro hmiss
    obtain ⟨cj2, hc2⟩ :=
      Option.isSome_iff_exists.mp ((missingOf_eq_nil _ _).mp hmiss "created" (by decide))
    have h := (init_created_spec MonzoPot.required_keys [] ctx data cj2 hnd hc2 hmiss).2 "_raw_data"
    simp only [MonzoPot.new]
    rw [h, habs]
    simp
  · intro hmiss
    have h := (init_base_spec MonzoBalance.required_keys [] ctx data hnd hmiss).2 "_raw_data"
    simp only [MonzoBalance.new]
    rw [h, habs]
    simp
  · intro hmiss
    obtain ⟨cj2, hc2⟩ :=
      Option.isSome_iff_exists.mp ((missingOf_eq_nil _ _).mp hmiss "created" (by decide))
    have h := (init_created_spec MonzoMerchant.required_keys [] ctx data cj2 hnd hc2 hmiss).2 "_raw_data"
    simp only [MonzoMerchant.new]
    rw [h, habs]
    simp
  · intro cjv hc hmiss hok
    have h := (tx_init_spec [] ctx data cjv hnd hc hmiss hok).2 "_raw_data"
    simp only [MonzoTransaction.new]
    rw [h, alookup_txDcOut_other data _ (by decide) (by decide) (by decide), habs]
    rw [alookup_txSelfOut_other _ _ _ _ (by decide) (by decide) (by decide), alookup_dictSet]
    simp

/-- C9 witness: a concrete account keeps the unparsed input mapping in
`_raw_data`. -/
theorem C9_witness :
    alookup "_raw_data" uniSample = none ∧
    alookup "_raw_data" (MonzoAccount.new uniSample (some 0)).1
      = some (Attr.rawData uniSample) :=
  ⟨rfl, (C9_raw_data_copy uniSample (some 0) (by decide) rfl).1 rfl⟩

/-- C8: construction does not mutate the caller's input mapping: in the
store model, the caller's dict cell holds the same mapping before and
after every variant's construction (the pops act on the fresh copy). -/
theorem C8_no_input_mutation (self0 : Dict) (ctx : Option Nat) (st : Store) (dataRef : Nat)
    (h : dataRef < st.length) :
    (Store.getRef (MonzoObject.initSt MonzoAccount.required_keys parse_created_st
        self0 ctx st dataRef).1 dataRef = Store.getRef st dataRef) ∧
    (Store.getRef (MonzoObject.initSt MonzoPot.required_keys parse_created_st
        self0 ctx st dataRef).1 dataRef = Store.getRef st dataRef) ∧
    (Store.getRef (MonzoObject.initSt MonzoBalance.required_keys MonzoObject.parse_special_fields_st
        self0 ctx st dataRef).1 dataRef = Store.getRef st dataRef) ∧
    (Store.getRef (MonzoObject.initSt MonzoTransaction.required_keys
        MonzoTransaction.parse_special_fields_st self0 ctx st dataRef).1 dataRef
      = Store.getRef st dataRef) ∧
    (Store.getRef (MonzoObject.initSt MonzoMerchant.required_keys parse_created_st
        self0 ctx st dataRef).1 dataRef = Store.getRef st dataRef) :=
  ⟨(initSt_frame _ _ pfFrame_created self0 ctx st dataRef).2 dataRef h,
   (initSt_frame _ _ pfFrame_created self0 ctx st dataRef).2 dataRef h,
   (initSt_frame _ _ pfFrame_base self0 ctx st dataRef).2 dataRef h,
   (initSt_frame _ _ pfFrame_tx self0 ctx st dataRef).2 dataRef h,
   (initSt_frame _ _ pfFrame_created self0 ctx st dataRef).2 dataRef h⟩

/-- C8 witness: a concrete transaction construction leaves the caller's
mapping cell untouched. -/
theorem C8_witness :
    0 < ([uniSample] : Store).length ∧
    Store.getRef (MonzoObject.initSt MonzoTransaction.required_keys
        MonzoTransaction.parse_special_fields_st [] (some 0) [uniSample] 0).1 0
      = Store.getRef [uniSample] 0 :=
  ⟨by decide, (C8_no_input_mutation [] (some 0) [uniSample] 0 (by decide)).2.2.2.1⟩
